import Mathlib

/-!
Shallow embedding of the training-load and synchronization core of the
strava-analytics repository (src/utils/training_metrics.py,
src/utils/sync_manager.py, src/utils/strava_client.py).

Python floats are modelled as exact rationals (ℚ); the single genuinely
irrational operation (the fourth root inside Normalized Power) lives in ℝ.
Python's `round(x, n)` rounds half to even; `pyRound` reproduces that.
-/

namespace StravaAnalytics

/-- Python's `round` to an integer: nearest integer, ties to even. -/
def pyRound {α : Type} [LinearOrderedField α] [FloorRing α] (x : α) : ℤ :=
  if x - ⌊x⌋ < 1/2 then ⌊x⌋
  else if 1/2 < x - ⌊x⌋ then ⌊x⌋ + 1
  else if Even ⌊x⌋ then ⌊x⌋ else ⌊x⌋ + 1

/-- Python's `round(x, 1)`. -/
def round1 {α : Type} [LinearOrderedField α] [FloorRing α] (x : α) : α :=
  (pyRound (10 * x) : α) / 10

/-- Python's `round(x, 2)`. -/
def round2 {α : Type} [LinearOrderedField α] [FloorRing α] (x : α) : α :=
  (pyRound (100 * x) : α) / 100

/-! ## TrainingMetrics (src/utils/training_metrics.py)

All functions are static and side-effect-free in the source; the `logger`
calls are the only effects and are dropped.  The truthiness guard
`if not v or v == 0` on a numeric argument is exactly `v = 0`.
-/

/-- `TrainingMetrics.CTL_TIME_CONSTANT` -/
def CTL_TIME_CONSTANT : ℚ := 42

/-- `TrainingMetrics.ATL_TIME_CONSTANT` -/
def ATL_TIME_CONSTANT : ℚ := 7

/-- `TrainingMetrics.calculate_tss_from_hr` (the `normalized` flag is unused
in the source body and omitted). -/
def calculate_tss_from_hr (duration_seconds average_hr threshold_hr : ℚ) : ℚ :=
  if threshold_hr = 0 then 0
  else
    let duration_hours := duration_seconds / 3600
    let intensity_factor := average_hr / threshold_hr
    round1 (duration_hours * intensity_factor * intensity_factor * 100)

/-- `TrainingMetrics.calculate_tss_from_power`; `ftp` is an `int` column. -/
def calculate_tss_from_power (duration_seconds normalized_power : ℚ) (ftp : ℤ) : ℚ :=
  if ftp = 0 then 0
  else
    let duration_hours := duration_seconds / 3600
    let intensity_factor := normalized_power / (ftp : ℚ)
    round1 (duration_hours * normalized_power * intensity_factor / (ftp : ℚ) * 100)

/-- The `np.convolve(power, ones(w)/w, mode='valid')` rolling mean: entry `i`
is the mean of the `w` consecutive samples starting at `i`. -/
def rolling_window_means (power : List ℚ) (w : ℕ) : List ℚ :=
  (List.range (power.length + 1 - w)).map (fun i => ((power.drop i).take w).sum / w)

/-- `TrainingMetrics.calculate_normalized_power`: guard below 30 samples,
30-second rolling mean, fourth powers, mean, fourth root, `round(·, 1)`.
The fourth root of a rational is irrational in general, so the result lives
in ℝ; `x ** 0.25 = sqrt (sqrt x)` on the nonnegative mean of fourth powers. -/
noncomputable def calculate_normalized_power (power_data : List ℚ) (sampling_interval : ℕ := 1) : ℝ :=
  if power_data.length < 30 then 0
  else
    let window_size := max (30 / sampling_interval) 1
    let rolling_avg := rolling_window_means power_data window_size
    round1 (Real.sqrt (Real.sqrt (((rolling_avg.map (fun x => x ^ 4)).sum / rolling_avg.length : ℚ) : ℝ)))

/-- `TrainingMetrics.calculate_intensity_factor` -/
def calculate_intensity_factor (normalized_power : ℚ) (ftp : ℤ) : ℚ :=
  if ftp = 0 then 0
  else (pyRound (1000 * (normalized_power / (ftp : ℚ))) : ℚ) / 1000

/-- The loop body of `calculate_ctl`: left fold of
`ctl = ctl + (tss - ctl) / 42` over the daily TSS list. -/
def ctl_fold (daily_tss_values : List ℚ) (previous_ctl : ℚ) : ℚ :=
  daily_tss_values.foldl (fun ctl daily_tss => ctl + (daily_tss - ctl) / CTL_TIME_CONSTANT) previous_ctl

/-- `TrainingMetrics.calculate_ctl` -/
def calculate_ctl (daily_tss_values : List ℚ) (previous_ctl : ℚ := 0) : ℚ :=
  round2 (ctl_fold daily_tss_values previous_ctl)

/-- The loop body of `calculate_atl`: left fold of
`atl = atl + (tss - atl) / 7` over the daily TSS list. -/
def atl_fold (daily_tss_values : List ℚ) (previous_atl : ℚ) : ℚ :=
  daily_tss_values.foldl (fun atl daily_tss => atl + (daily_tss - atl) / ATL_TIME_CONSTANT) previous_atl

/-- `TrainingMetrics.calculate_atl` -/
def calculate_atl (daily_tss_values : List ℚ) (previous_atl : ℚ := 0) : ℚ :=
  round2 (atl_fold daily_tss_values previous_atl)

/-- `TrainingMetrics.calculate_tsb` -/
def calculate_tsb (ctl atl : ℚ) : ℚ :=
  round2 (ctl - atl)

/-- One entry of the `zones` argument of `calculate_time_in_zones`:
a dict with keys `min_value` and `max_value`. -/
structure ZoneDef where
  min_value : ℚ
  max_value : ℚ
deriving Repr, DecidableEq

/-- `TrainingMetrics.calculate_time_in_zones`: the result dict, as the list
of `(zone_number, seconds)` pairs in insertion order (`enumerate(zones, 1)`).
Every zone is tested against every sample: `(hr >= min) & (hr < max)`. -/
def calculate_time_in_zones (hr_data : List ℚ) (zones : List ZoneDef)
    (sampling_interval : ℚ := 1) : List (ℕ × ℚ) :=
  if hr_data = [] ∨ zones = [] then []
  else
    zones.enum.map (fun iz =>
      (iz.1 + 1,
       ((hr_data.countP (fun s => decide (iz.2.min_value ≤ s ∧ s < iz.2.max_value))) : ℚ)
         * sampling_interval))

/-- `TrainingMetrics.estimate_ftp_from_activity`.  The source computes
`duration_minutes = duration_seconds / 60.0` and then compares that value
against the bounds `4 * 60`, `6 * 60`, `18 * 60`, `22 * 60`, `50 * 60`,
`70 * 60`; the comparisons are transcribed verbatim. -/
def estimate_ftp_from_activity (duration_seconds average_power normalized_power : ℚ) :
    Option ℤ :=
  let duration_minutes := duration_seconds / 60
  let power := if normalized_power > 0 then normalized_power else average_power
  if power = 0 then none
  else if 4 * 60 ≤ duration_minutes ∧ duration_minutes ≤ 6 * 60 then
    some (pyRound (power * (93 / 100)))
  else if 18 * 60 ≤ duration_minutes ∧ duration_minutes ≤ 22 * 60 then
    some (pyRound (power * (95 / 100)))
  else if 50 * 60 ≤ duration_minutes ∧ duration_minutes ≤ 70 * 60 then
    some (pyRound (power * 1))
  else
    none

/-- The activity dict built by `SyncManager._sync_activity` and consumed by
`calculate_activity_tss`: `moving_time`, `weighted_average_watts`,
`average_heartrate`.  `none` stands for an absent/None value, which Python's
`dict.get(key, 0)` maps to the default and truthiness tests treat as false. -/
structure ActivityDict where
  moving_time : Option ℤ
  weighted_average_watts : Option ℤ
  average_heartrate : Option ℚ
deriving Repr, DecidableEq

/-- `calculate_activity_tss` (module-level convenience function): power first,
then heart rate, else the duration-based estimate `duration_hours * 50`. -/
def calculate_activity_tss (activity : ActivityDict)
    (athlete_ftp : Option ℤ := none) (athlete_threshold_hr : Option ℚ := none) : ℚ :=
  if activity.weighted_average_watts.getD 0 ≠ 0 ∧ athlete_ftp.getD 0 ≠ 0 then
    calculate_tss_from_power ((activity.moving_time.getD 0 : ℤ) : ℚ)
      ((activity.weighted_average_watts.getD 0 : ℤ) : ℚ) (athlete_ftp.getD 0)
  else if activity.average_heartrate.getD 0 ≠ 0 ∧ athlete_threshold_hr.getD 0 ≠ 0 then
    calculate_tss_from_hr ((activity.moving_time.getD 0 : ℤ) : ℚ)
      (activity.average_heartrate.getD 0) (athlete_threshold_hr.getD 0)
  else
    round1 (((activity.moving_time.getD 0 : ℤ) : ℚ) / 3600 * 50)

/-! ## SyncManager (src/utils/sync_manager.py)

The persistence layer is modelled at day granularity: an `ActivityRow` is one
stored activity (`start_date.date()` as an integer day, `training_stress_score`
already computed at upsert time), a `TrainingLoadRow` is one row of the
`training_loads` table.
-/

/-- One stored activity, reduced to the fields `_calculate_training_loads`
reads: its calendar day and its `training_stress_score`. -/
structure ActivityRow where
  id : ℤ
  day : ℤ
  tss : ℚ
deriving Repr, DecidableEq

/-- One row of the `training_loads` table. -/
structure TrainingLoadRow where
  day : ℤ
  daily_tss : ℚ
  ctl : ℚ
  atl : ℚ
  tsb : ℚ
deriving Repr, DecidableEq

/-- The save-or-update step of `_calculate_training_loads`: overwrite the row
with the same date if one exists, otherwise add a new row. -/
def upsert_load (store : List TrainingLoadRow) (r : TrainingLoadRow) : List TrainingLoadRow :=
  if store.any (fun x => x.day = r.day) then
    store.map (fun x => if x.day = r.day then r else x)
  else
    store ++ [r]

/-- The row returned by
`query(TrainingLoad).order_by(TrainingLoad.date.desc()).first()`:
the stored row with the greatest date (`none` on an empty table). -/
def latest_load (store : List TrainingLoadRow) : Option TrainingLoadRow :=
  store.argmax (fun r => r.day)

/-- `SyncManager._calculate_training_loads(after_date)`.

Transcribed step by step from the source: filter the athlete's activities to
`start_date >= after_date` when a bound is given; return the store unchanged
when none match; seed `previous_ctl`/`previous_atl` from the most recent
stored `TrainingLoad` row (the greatest date over the WHOLE table, not the row
preceding `after_date`), or 0.0 when the table is empty; group the activities
by day, summing `training_stress_score`; then walk the days in ascending
order, applying `calculate_ctl`/`calculate_atl` one day at a time and
upserting each day's row. -/
def calc_training_loads (acts : List ActivityRow) (after_date : Option ℤ)
    (store : List TrainingLoadRow) : List TrainingLoadRow :=
  let activities := match after_date with
    | none => acts
    | some ad => acts.filter (fun a => ad ≤ a.day)
  if activities.isEmpty then store
  else
    let previous_load := latest_load store
    let previous_ctl := (previous_load.map (fun r => r.ctl)).getD 0
    let previous_atl := (previous_load.map (fun r => r.atl)).getD 0
    let days := ((activities.map (fun a => a.day)).dedup).insertionSort (· ≤ ·)
    (days.foldl
      (fun (st : List TrainingLoadRow × ℚ × ℚ) d =>
        let daily_tss_value := ((activities.filter (fun a => a.day = d)).map (fun a => a.tss)).sum
        let current_ctl := calculate_ctl [daily_tss_value] st.2.1
        let current_atl := calculate_atl [daily_tss_value] st.2.2
        let current_tsb := calculate_tsb current_ctl current_atl
        (upsert_load st.1 ⟨d, daily_tss_value, current_ctl, current_atl, current_tsb⟩,
         current_ctl, current_atl))
      (store, previous_ctl, previous_atl)).1

/-- The training-load step of `full_sync`: `_calculate_training_loads()` with
no `after_date`, over all stored activities, against the current store. -/
def full_sync_loads (acts : List ActivityRow) (store : List TrainingLoadRow) :
    List TrainingLoadRow :=
  calc_training_loads acts none store

/-- The training-load step of `incremental_sync` when new activities were
found: `_calculate_training_loads(after_date)` where `after_date` is the
checkpoint `last_activity_date` of the last successful sync (`none` when
there is no prior success — and also in every actual run, since no code path
ever assigns `SyncMetadata.last_activity_date`). -/
def incremental_sync_loads (acts : List ActivityRow) (after_date : Option ℤ)
    (store : List TrainingLoadRow) : List TrainingLoadRow :=
  calc_training_loads acts after_date store

/-- Look up the stored TrainingLoad row for a given day. -/
def lookup_load (store : List TrainingLoadRow) (d : ℤ) : Option TrainingLoadRow :=
  store.find? (fun r => r.day = d)

/-! ### The top-level sync state machine (full_sync / incremental_sync)

Each effectful step of the Python method is modelled as an `Except String`
value supplied by the environment: `.error e` is the step raising an
exception whose `str` is `e`.  The method bodies are transcribed around
them: session acquisition and `_create_sync_record` happen BEFORE the
`try`, the numbered steps inside it, and the `except` branch writes the
failure record and commits (a raise in that commit propagates). -/

structure SyncEnv where
  open_session : Except String Unit
  create_record : Except String Unit
  sync_profile : Except String Unit
  sync_activities : Except String ℕ
  lookup_last_sync : Except String (Option ℤ)
  calc_loads : Except String Unit
  sync_streams : Except String ℕ
  commit_success : Except String Unit
  commit_failure : Except String Unit
deriving Repr

/-- The result dict of `full_sync`/`incremental_sync`. -/
structure SyncResult where
  status : String
  activities_synced : Option ℕ
  streams_synced : Option ℕ
  error : Option String
deriving Repr, DecidableEq

/-- Shared tail of both sync methods: run the guarded body; on success build
the success dict, on an exception write and commit the failure record (a
second exception there propagates) and build the failure dict. -/
def sync_guard (body : Except String (ℕ × ℕ)) (env : SyncEnv) : Except String SyncResult :=
  match body with
  | .ok (a, s) =>
    .ok { status := "success", activities_synced := some a,
          streams_synced := some s, error := none }
  | .error e =>
    match env.commit_failure with
    | .ok _ =>
      .ok { status := "failed", activities_synced := none,
            streams_synced := none, error := some e }
    | .error e2 => .error e2

/-- `SyncManager.full_sync`: session and `in_progress` record creation sit
before the `try`, so their exceptions propagate; profile, activities,
training loads, streams and the success commit are guarded. -/
def full_sync (env : SyncEnv) : Except String SyncResult := do
  _ ← env.open_session
  _ ← env.create_record
  sync_guard
    (do
      _ ← env.sync_profile
      let a ← env.sync_activities
      _ ← env.calc_loads
      let s ← env.sync_streams
      _ ← env.commit_success
      pure (a, s))
    env

/-- `SyncManager.incremental_sync`: same shape; inside the `try` the
checkpoint lookup, the bounded activity fetch, and — only when new
activities were found — training loads and streams. -/
def incremental_sync (env : SyncEnv) : Except String SyncResult := do
  _ ← env.open_session
  _ ← env.create_record
  sync_guard
    (do
      _ ← env.lookup_last_sync
      let a ← env.sync_activities
      let s ← if 0 < a then do
          _ ← env.calc_loads
          env.sync_streams
        else pure 0
      _ ← env.commit_success
      pure (a, s))
    env

/-! ## StravaClient (src/utils/strava_client.py) -/

/-- The exception classes distinguished by `_make_request_with_retry`. -/
inductive RequestError where
  | rateLimitExceeded
  | accessUnauthorized
  | other
deriving Repr, DecidableEq

/-- The `for attempt in range(max_retries)` loop of
`_make_request_with_retry`.  `func i` is the outcome of the `i`-th invocation
of the wrapped call, `refresh k` the outcome of the `k`-th token refresh
(`_refresh_access_token` returns a `Bool` and raises nothing).  The result
pairs the call's outcome with the number of refreshes attempted; `.ok none`
is the loop running out of attempts and the method implicitly returning
`None`. -/
def retry_loop {α : Type} (func : ℕ → Except RequestError α) (refresh : ℕ → Bool)
    (max_retries : ℕ) : ℕ → ℕ → Except RequestError (Option α) × ℕ
  | attempt, refreshes =>
    if _h : attempt < max_retries then
      match func attempt with
      | .ok result => (.ok (some result), refreshes)
      | .error .rateLimitExceeded =>
        if attempt < max_retries - 1 then
          retry_loop func refresh max_retries (attempt + 1) refreshes
        else
          (.error .rateLimitExceeded, refreshes)
      | .error .accessUnauthorized =>
        if refresh refreshes then
          retry_loop func refresh max_retries (attempt + 1) (refreshes + 1)
        else
          (.error .accessUnauthorized, refreshes + 1)
      | .error .other =>
        if attempt < max_retries - 1 then
          retry_loop func refresh max_retries (attempt + 1) refreshes
        else
          (.error .other, refreshes)
    else
      (.ok none, refreshes)
termination_by attempt _ => max_retries - attempt

/-- `StravaClient._make_request_with_retry` (default `max_retries = 3`):
`_check_rate_limit` first (its exceptions propagate untouched), then the
retry loop. -/
def make_request_with_retry {α : Type} (check : Except RequestError Unit)
    (func : ℕ → Except RequestError α) (refresh : ℕ → Bool)
    (max_retries : ℕ := 3) : Except RequestError (Option α) × ℕ :=
  match check with
  | .error e => (.error e, 0)
  | .ok _ => retry_loop func refresh max_retries 0 0

/-! ## TSS assignment at upsert time (SyncManager._sync_activity, tail) -/

/-- The athlete threshold fields read when computing an activity's TSS. -/
structure AthleteRec where
  ftp : Option ℤ
  max_heart_rate : Option ℚ
deriving Repr, DecidableEq

/-- The TSS-assignment tail of `_sync_activity`: when the athlete row exists,
`training_stress_score` is set to `calculate_activity_tss` with
`athlete_threshold_hr = max_heart_rate * 0.95 if max_heart_rate else None`;
with no athlete row the previous value is left untouched. -/
def sync_activity_tss (activity : ActivityDict) (athlete : Option AthleteRec)
    (old_tss : Option ℚ) : Option ℚ :=
  match athlete with
  | none => old_tss
  | some a =>
    some (calculate_activity_tss activity a.ftp
      (if a.max_heart_rate.getD 0 = 0 then none
       else some (a.max_heart_rate.getD 0 * (95 / 100))))

/-- Fixture: every modelled effect succeeds. -/
def all_ok_env : SyncEnv :=
  { open_session := .ok (), create_record := .ok (), sync_profile := .ok (),
    sync_activities := .ok 5, lookup_last_sync := .ok none, calc_loads := .ok (),
    sync_streams := .ok 2, commit_success := .ok (), commit_failure := .ok () }

/-- Fixture: creating the `in_progress` SyncMetadata record raises (e.g. the
database is unreachable); everything else would succeed. -/
def record_failure_env : SyncEnv :=
  { all_ok_env with create_record := .error "db down" }

/-! ## Helper lemmas for evaluating the rounding primitives -/

section RoundHelpers

variable {α : Type} [LinearOrderedField α] [FloorRing α]

theorem pyRound_down {x : α} {n : ℤ} (h1 : (n : α) ≤ x) (h2 : x < (n : α) + 1 / 2) :
    pyRound x = n := by
  have hf : ⌊x⌋ = n := Int.floor_eq_iff.mpr ⟨h1, h2.trans_le (by linarith)⟩
  rw [pyRound, hf, if_pos (by linarith)]

theorem pyRound_up {x : α} {n : ℤ} (h1 : (n : α) + 1 / 2 < x) (h2 : x < (n : α) + 1) :
    pyRound x = n + 1 := by
  have hf : ⌊x⌋ = n := Int.floor_eq_iff.mpr ⟨by linarith, h2⟩
  rw [pyRound, hf, if_neg (by linarith), if_pos (by linarith)]

theorem pyRound_intCast (n : ℤ) : pyRound ((n : α)) = n :=
  pyRound_down le_rfl (by linarith)

theorem le_pyRound (x : α) : ⌊x⌋ ≤ pyRound x := by
  rw [pyRound]
  split
  · exact le_rfl
  · split
    · exact le_of_lt (lt_add_one _)
    · split
      · exact le_rfl
      · exact le_of_lt (lt_add_one _)

theorem one_le_pyRound {x : α} (h : 1 / 2 < x) : 1 ≤ pyRound x := by
  rcases le_or_lt 1 ⌊x⌋ with h1 | h1
  · exact h1.trans (le_pyRound x)
  · have h0 : ⌊x⌋ = 0 := le_antisymm (by omega)
      (Int.le_floor.mpr (by push_cast; linarith))
    rw [pyRound, h0, if_neg (by push_cast; linarith), if_pos (by push_cast; linarith)]
    omega

theorem round1_eval_down {x : α} {n : ℤ} (h1 : (n : α) ≤ 10 * x)
    (h2 : 10 * x < (n : α) + 1 / 2) : round1 x = (n : α) / 10 := by
  rw [round1, pyRound_down h1 h2]

theorem round1_eval_up {x : α} {n : ℤ} (h1 : (n : α) + 1 / 2 < 10 * x)
    (h2 : 10 * x < (n : α) + 1) : round1 x = ((n : α) + 1) / 10 := by
  rw [round1, pyRound_up h1 h2]; push_cast; ring

theorem round2_eval_down {x : α} {n : ℤ} (h1 : (n : α) ≤ 100 * x)
    (h2 : 100 * x < (n : α) + 1 / 2) : round2 x = (n : α) / 100 := by
  rw [round2, pyRound_down h1 h2]

theorem round2_eval_up {x : α} {n : ℤ} (h1 : (n : α) + 1 / 2 < 100 * x)
    (h2 : 100 * x < (n : α) + 1) : round2 x = ((n : α) + 1) / 100 := by
  rw [round2, pyRound_up h1 h2]; push_cast; ring

end RoundHelpers

/-! ## C3: FTP estimation duration windows -/

/-- **C3.**  The claim: for positive power, `estimate_ftp_from_activity`
returns `round(0.95 * p)` when the duration is within 10% of 20 minutes — in
particular at `duration_seconds = 1200` — and an estimate inside each of the
5/20/60-minute windows.  The code divides the duration by 60 and then
compares the resulting MINUTES against bounds written in seconds
(`4 * 60 ≤ duration_minutes ≤ 6 * 60`, etc.), contradicting its own
docstring: a 20-minute (1200 s) maximal effort yields `none` instead of
`round(0.95 * 300) = 285`, while a 5-HOUR ride (18000 s) falls in the
"5-minute test" window and yields `round(0.93 * 300) = 279`. -/
theorem C3_estimate_ftp_duration_unit_bug :
    estimate_ftp_from_activity 1200 300 300 = none ∧
    estimate_ftp_from_activity 3600 300 300 = none ∧
    estimate_ftp_from_activity 18000 300 300 = some 279 := by
  refine ⟨?_, ?_, ?_⟩
  · rw [estimate_ftp_from_activity]
    norm_num
  · rw [estimate_ftp_from_activity]
    norm_num
  · rw [estimate_ftp_from_activity]
    norm_num
    rw [pyRound_down (n := 279) (by norm_num) (by norm_num)]

/-! ## C5: divisor-zero guards in the TSS functions -/

/-- **C5 counterexample.**  The claim asserts the guard fires for every
`ftp ≤ 0` (resp. `threshold_hr ≤ 0`).  The source tests only Python
truthiness (`not ftp or ftp == 0`), so a negative FTP of −100 slips past the
guard and the formula returns 400.0, not 0.0. -/
theorem C5_negative_ftp_counterexample :
    calculate_tss_from_power 3600 200 (-100) = 400 ∧
    calculate_tss_from_hr 3600 150 (-150) = 100 := by
  constructor
  · rw [calculate_tss_from_power, if_neg (by norm_num)]
    show round1 _ = _
    rw [round1_eval_down (n := 4000) (by norm_num) (by norm_num)]
    norm_num
  · rw [calculate_tss_from_hr, if_neg (by norm_num)]
    show round1 _ = _
    rw [round1_eval_down (n := 1000) (by norm_num) (by norm_num)]
    norm_num

/-- **C5 (amended).**  The zero-divisor guard: for every duration and
power/heart-rate value, `calculate_tss_from_power` with `ftp = 0` and
`calculate_tss_from_hr` with `threshold_hr = 0` return 0.0 (the guard
returns instead of dividing), and in particular
`calculate_tss_from_power 3600 200 0 = 0` and
`calculate_tss_from_hr 3600 150 0 = 0`.  (Negative divisors, excluded by the
counterexample above, pass the truthiness guard.) -/
theorem C5_zero_divisor_guard :
    (∀ d np : ℚ, calculate_tss_from_power d np 0 = 0) ∧
    (∀ d hr : ℚ, calculate_tss_from_hr d hr 0 = 0) ∧
    calculate_tss_from_power 3600 200 0 = 0 ∧
    calculate_tss_from_hr 3600 150 0 = 0 := by
  refine ⟨fun d np => ?_, fun d hr => ?_, ?_, ?_⟩ <;>
    simp [calculate_tss_from_power, calculate_tss_from_hr]

/-! ## C6: time-in-zones assignment -/

/-- **C6 counterexample.**  The claim asserts that when zone bounds overlap a
sample is counted toward only the FIRST matching zone.  The source tests
every zone independently (`(hr >= min) & (hr < max)` per zone), so the
sample 110 against the overlapping zones `[(0,120), (100,150)]` is counted
toward BOTH zones: zone 2 also receives the full sampling interval. -/
theorem C6_overlapping_zones_counterexample :
    calculate_time_in_zones [110] [⟨0, 120⟩, ⟨100, 150⟩] 1 = [(1, 1), (2, 1)] := by
  rw [calculate_time_in_zones, if_neg (by simp)]
  norm_num [List.enum, List.enumFrom, List.countP_cons, List.countP_nil]

/-- **C6 (amended).**  Each sample is assigned by the half-open interval
`[min, max)` — lower bound inclusive, upper bound exclusive — independently
for EVERY zone in declared order (so overlapping zones each count the
sample, rather than only the first match): the entry for zone `i + 1` is the
sampling interval exactly when the sample lies in zone `i`'s interval, and 0
otherwise; with the claim's zones `[(1,0,120),(2,120,150),(3,150,999)]` a
sample of 119 counts toward zone 1 and a sample of 120 toward zone 2. -/
theorem C6_half_open_zone_assignment :
    (∀ (s : ℚ) (zones : List ZoneDef) (interval : ℚ) (i : ℕ) (hz : i < zones.length),
      (calculate_time_in_zones [s] zones interval)[i]? =
        some (i + 1,
          if (zones.get ⟨i, hz⟩).min_value ≤ s ∧ s < (zones.get ⟨i, hz⟩).max_value then
            interval
          else 0)) ∧
    calculate_time_in_zones [119] [⟨0, 120⟩, ⟨120, 150⟩, ⟨150, 999⟩] 1 =
      [(1, 1), (2, 0), (3, 0)] ∧
    calculate_time_in_zones [120] [⟨0, 120⟩, ⟨120, 150⟩, ⟨150, 999⟩] 1 =
      [(1, 0), (2, 1), (3, 0)] := by
  refine ⟨fun s zones interval i hz => ?_, ?_, ?_⟩
  · rw [calculate_time_in_zones,
      if_neg (not_or.mpr ⟨by simp, List.length_pos.mp (lt_of_le_of_lt (Nat.zero_le i) hz)⟩)]
    rw [List.getElem?_map, List.getElem?_enum, List.getElem?_eq_getElem hz]
    simp only [Option.map_some, List.countP_cons, List.countP_nil, List.get_eq_getElem]
    by_cases hc : zones[i].min_value ≤ s ∧ s < zones[i].max_value
    · simp [hc]
    · simp [hc]
  · rw [calculate_time_in_zones, if_neg (by simp)]
    norm_num [List.enum, List.enumFrom, List.countP_cons, List.countP_nil]
  · rw [calculate_time_in_zones, if_neg (by simp)]
    norm_num [List.enum, List.enumFrom, List.countP_cons, List.countP_nil]

/-! ## C8: CTL/ATL monotone convergence -/

theorem ctl_fold_replicate_succ (T s : ℚ) (n : ℕ) :
    ctl_fold (List.replicate (n + 1) T) s =
      ctl_fold (List.replicate n T) s + (T - ctl_fold (List.replicate n T) s) / 42 := by
  rw [List.replicate_succ', ctl_fold, ctl_fold, List.foldl_append, List.foldl_cons,
    List.foldl_nil, CTL_TIME_CONSTANT]

theorem atl_fold_replicate_succ (T s : ℚ) (n : ℕ) :
    atl_fold (List.replicate (n + 1) T) s =
      atl_fold (List.replicate n T) s + (T - atl_fold (List.replicate n T) s) / 7 := by
  rw [List.replicate_succ', atl_fold, atl_fold, List.foldl_append, List.foldl_cons,
    List.foldl_nil, ATL_TIME_CONSTANT]

/-- Closed form of the 42-day EMA recursion over a constant series. -/
theorem ctl_fold_replicate_closed_form (T s : ℚ) (n : ℕ) :
    ctl_fold (List.replicate n T) s = T - (T - s) * (41 / 42) ^ n := by
  induction n with
  | zero => simp [ctl_fold]
  | succ n ih => rw [ctl_fold_replicate_succ, ih]; ring

/-- Closed form of the 7-day EMA recursion over a constant series. -/
theorem atl_fold_replicate_closed_form (T s : ℚ) (n : ℕ) :
    atl_fold (List.replicate n T) s = T - (T - s) * (6 / 7) ^ n := by
  induction n with
  | zero => simp [atl_fold]
  | succ n ih => rw [atl_fold_replicate_succ, ih]; ring

/-- **C8.**  For every constant daily TSS `T > 0` fed repeatedly from seed 0,
the CTL recursion `ctl = ctl + (T - ctl) / 42` of `calculate_ctl` produces a
strictly increasing sequence bounded above by `T`; the ATL recursion with
divisor 7 stays ahead of it (`ctl_i ≤ atl_i` for every `i`, faster
convergence toward `T`); and after 42 days of constant `T = 50` the stored
CTL value `calculate_ctl (List.replicate 42 50) 0` (= 31.83) exceeds 31.5. -/
theorem C8_ctl_atl_monotone_convergence (T : ℚ) (hT : 0 < T) :
    (∀ i : ℕ, ctl_fold (List.replicate i T) 0 < ctl_fold (List.replicate (i + 1) T) 0) ∧
    (∀ i : ℕ, ctl_fold (List.replicate i T) 0 ≤ T) ∧
    (∀ i : ℕ, ctl_fold (List.replicate i T) 0 ≤ atl_fold (List.replicate i T) 0) ∧
    63 / 2 < calculate_ctl (List.replicate 42 50) 0 := by
  have hqpos : ∀ i : ℕ, (0 : ℚ) < (41 / 42) ^ i := fun i => pow_pos (by norm_num) i
  refine ⟨fun i => ?_, fun i => ?_, fun i => ?_, ?_⟩
  · rw [ctl_fold_replicate_closed_form, ctl_fold_replicate_closed_form, pow_succ]
    have := hqpos i
    nlinarith
  · rw [ctl_fold_replicate_closed_form]
    have := hqpos i
    nlinarith
  · rw [ctl_fold_replicate_closed_form, atl_fold_replicate_closed_form]
    have hpow : ((6 : ℚ) / 7) ^ i ≤ (41 / 42) ^ i :=
      pow_le_pow_left₀ (by norm_num) (by norm_num) i
    nlinarith
  · have hq : ((41 : ℚ) / 42) ^ 42 < 909 / 2500 := by norm_num
    set x : ℚ := ctl_fold (List.replicate 42 50) 0 with hx
    have hxval : x = 50 - 50 * (41 / 42) ^ 42 := by
      rw [hx, ctl_fold_replicate_closed_form]; ring
    have h100 : (3182 : ℚ) ≤ 100 * x := by rw [hxval]; nlinarith
    have hfloor : (3182 : ℤ) ≤ ⌊100 * x⌋ := Int.le_floor.mpr (by exact_mod_cast h100)
    have hpy : (3182 : ℤ) ≤ pyRound (100 * x) := hfloor.trans (le_pyRound _)
    have : (3182 : ℚ) / 100 ≤ (pyRound (100 * x) : ℚ) / 100 := by
      apply div_le_div_of_nonneg_right ?_ (by norm_num)
      exact_mod_cast hpy
    calc (63 : ℚ) / 2 < 3182 / 100 := by norm_num
      _ ≤ (pyRound (100 * x) : ℚ) / 100 := this
      _ = calculate_ctl (List.replicate 42 50) 0 := by rw [calculate_ctl, round2, hx]

/-! ## C7: Normalized Power boundary behaviour -/

/-- A constant 30-sample series has a single rolling window, whose mean is
the constant itself. -/
theorem rolling_window_means_replicate (v : ℚ) :
    rolling_window_means (List.replicate 30 v) 30 = [v] := by
  rw [rolling_window_means]
  simp [List.take_replicate, List.sum_replicate, nsmul_eq_mul, List.range_succ]
  ring

/-- On 30 constant samples at interval 1, Normalized Power collapses to
`round(v, 1)`: one rolling mean `v`, fourth power `v⁴`, mean `v⁴`, fourth
root `v`. -/
theorem calculate_normalized_power_replicate_30 (v : ℚ) (hv : 0 ≤ v) :
    calculate_normalized_power (List.replicate 30 v) 1 = round1 ((v : ℝ)) := by
  simp only [calculate_normalized_power, List.length_replicate, Nat.lt_irrefl, if_false]
  norm_num [rolling_window_means_replicate]
  have h4 : ((v : ℝ)) ^ 4 = (((v : ℝ)) ^ 2) ^ 2 := by ring
  rw [h4, Real.sqrt_sq (sq_nonneg _), Real.sqrt_sq (by exact_mod_cast hv)]

/-- **C7 counterexample.**  The claim asserts a constant 30-sample series of
value `v` returns `v` for every constant; but the source rounds the result
to one decimal (`round(np_value, 1)`), so the constant series at `v = 1/3`
returns 0.3, not 1/3. -/
theorem C7_constant_series_rounding_counterexample :
    calculate_normalized_power (List.replicate 30 ((1 : ℚ) / 3)) 1 = 3 / 10 ∧
    ((3 : ℝ) / 10) ≠ (((1 : ℚ) / 3 : ℚ) : ℝ) := by
  constructor
  · rw [calculate_normalized_power_replicate_30 _ (by norm_num)]
    rw [round1_eval_down (n := 3) (by push_cast; norm_num) (by push_cast; norm_num)]
    norm_num
  · push_cast
    norm_num

/-- **C7 (amended).**  `calculate_normalized_power` returns 0.0 for every
power series of fewer than 30 samples (in particular one of exactly 29
samples, witnessed below), and for a series of exactly 30 samples all equal
to a constant `v ≥ 0` at sampling interval 1 it returns `round(v, 1)` — in
particular exactly `v` for every whole-number wattage `v` (the rounding to
one decimal, forced by the counterexample above, is the only deviation from
the claim). -/
theorem C7_normalized_power_boundary :
    (∀ (power_data : List ℚ) (k : ℕ), power_data.length < 30 →
      calculate_normalized_power power_data k = 0) ∧
    (∀ v : ℚ, 0 ≤ v →
      calculate_normalized_power (List.replicate 30 v) 1 = round1 ((v : ℝ))) ∧
    (∀ v : ℕ, calculate_normalized_power (List.replicate 30 (v : ℚ)) 1 = v) := by
  refine ⟨fun power_data k h => ?_, fun v hv => ?_, fun v => ?_⟩
  · rw [calculate_normalized_power, if_pos h]
  · exact calculate_normalized_power_replicate_30 v hv
  · rw [calculate_normalized_power_replicate_30 _ (by positivity)]
    rw [round1_eval_down (n := 10 * v) (by push_cast; norm_num) (by push_cast; norm_num)]
    push_cast
    ring

/-! ## C10: duration-based TSS fallback -/

/-- **C10 counterexample.**  The claim asserts the fallback estimate is
nonzero for ANY nonzero moving time; but `round(moving_time/3600 * 50, 1)`
rounds to one decimal, so a 1-second activity (estimate 0.0139) gets TSS
0.0, which is also what `_sync_activity` stores. -/
theorem C10_small_moving_time_zero_tss :
    calculate_activity_tss ⟨some 1, none, none⟩ none none = 0 ∧
    sync_activity_tss ⟨some 1, none, none⟩ (some ⟨none, none⟩) none = some 0 := by
  have h : calculate_activity_tss ⟨some 1, none, none⟩ none none = 0 := by
    rw [calculate_activity_tss]
    norm_num
    rw [round1_eval_down (n := 0) (by norm_num) (by norm_num)]
    norm_num
  refine ⟨h, ?_⟩
  rw [sync_activity_tss]
  norm_num
  exact h

/-- **C10 (amended).**  For every activity with neither usable power data
(`weighted_average_watts` truthy together with a truthy athlete FTP) nor
usable heart-rate data (`average_heartrate` truthy together with a truthy
threshold HR), `calculate_activity_tss` returns
`round(moving_time/3600 * 50, 1)`, and this estimate is exactly what
`_sync_activity` stores as `training_stress_score` (the athlete's threshold
HR being derived as `max_heart_rate * 0.95` when `max_heart_rate` is
truthy).  The estimate is nonzero for every `moving_time ≥ 4` seconds, but —
as forced by the counterexample above — rounds to 0.0 for
`moving_time ≤ 3`. -/
theorem C10_fallback_estimate (mt : ℤ) (watts : Option ℤ) (hr : Option ℚ)
    (ftp : Option ℤ) (thr mhr old : Option ℚ)
    (hw : watts.getD 0 = 0 ∨ ftp.getD 0 = 0)
    (hh : hr.getD 0 = 0 ∨ thr.getD 0 = 0)
    (hh2 : hr.getD 0 = 0 ∨ mhr.getD 0 = 0) :
    calculate_activity_tss ⟨some mt, watts, hr⟩ ftp thr =
      round1 ((mt : ℚ) / 3600 * 50) ∧
    sync_activity_tss ⟨some mt, watts, hr⟩ (some ⟨ftp, mhr⟩) old =
      some (round1 ((mt : ℚ) / 3600 * 50)) ∧
    (4 ≤ mt → 0 < round1 ((mt : ℚ) / 3600 * 50)) := by
  have key : ∀ t : Option ℚ, hr.getD 0 = 0 ∨ t.getD 0 = 0 →
      calculate_activity_tss ⟨some mt, watts, hr⟩ ftp t =
        round1 ((mt : ℚ) / 3600 * 50) := by
    intro t ht
    rw [calculate_activity_tss,
      if_neg (by rcases hw with h | h <;> simp [h]),
      if_neg (by rcases ht with h | h <;> simp [h])]
    norm_num
  refine ⟨key thr hh, ?_, fun hmt => ?_⟩
  · rw [sync_activity_tss]
    rcases hh2 with h | h
    · exact congrArg some (key _ (Or.inl h))
    · refine congrArg some (key _ (Or.inr ?_))
      simp [h]
  · have hq : (4 : ℚ) ≤ (mt : ℚ) := by exact_mod_cast hmt
    have hhalf : (1 : ℚ) / 2 < 10 * ((mt : ℚ) / 3600 * 50) := by linarith
    have h1 : (1 : ℤ) ≤ pyRound (10 * ((mt : ℚ) / 3600 * 50)) := one_le_pyRound hhalf
    rw [round1]
    have : (1 : ℚ) ≤ (pyRound (10 * ((mt : ℚ) / 3600 * 50)) : ℚ) := by exact_mod_cast h1
    linarith

/-! ## C1/C2: training-load recomputation seeding

Concrete evaluations of the per-day `calculate_ctl`/`calculate_atl`/
`calculate_tsb` steps used by `_calculate_training_loads`, for a daily TSS
of 42 (one activity of TSS 42 per day). -/

theorem eval_ctl_seed0 : calculate_ctl [42] 0 = 1 := by
  rw [calculate_ctl]
  have h : ctl_fold [42] 0 = 1 := by simp [ctl_fold, CTL_TIME_CONSTANT]
  rw [h, round2_eval_down (n := 100) (by norm_num) (by norm_num)]
  norm_num

theorem eval_atl_seed0 : calculate_atl [42] 0 = 6 := by
  rw [calculate_atl]
  have h : atl_fold [42] 0 = 6 := by simp [atl_fold, ATL_TIME_CONSTANT]; norm_num
  rw [h, round2_eval_down (n := 600) (by norm_num) (by norm_num)]
  norm_num

theorem eval_tsb_1_6 : calculate_tsb 1 6 = -5 := by
  rw [calculate_tsb, round2_eval_down (n := -500) (by norm_num) (by norm_num)]
  norm_num

theorem eval_ctl_seed1 : calculate_ctl [42] 1 = 99 / 50 := by
  rw [calculate_ctl]
  have h : ctl_fold [42] 1 = 83 / 42 := by simp [ctl_fold, CTL_TIME_CONSTANT]; norm_num
  rw [h, round2_eval_up (n := 197) (by norm_num) (by norm_num)]
  norm_num

theorem eval_atl_seed6 : calculate_atl [42] 6 = 557 / 50 := by
  rw [calculate_atl]
  have h : atl_fold [42] 6 = 78 / 7 := by simp [atl_fold, ATL_TIME_CONSTANT]; norm_num
  rw [h, round2_eval_down (n := 1114) (by norm_num) (by norm_num)]
  norm_num

theorem eval_tsb_day1 : calculate_tsb (99 / 50) (557 / 50) = -229 / 25 := by
  rw [calculate_tsb, round2_eval_down (n := -916) (by norm_num) (by norm_num)]
  norm_num

theorem eval_ctl_seed198 : calculate_ctl [42] (99 / 50) = 293 / 100 := by
  rw [calculate_ctl]
  have h : ctl_fold [42] (99 / 50) = 2053 / 700 := by
    simp [ctl_fold, CTL_TIME_CONSTANT]; norm_num
  rw [h, round2_eval_down (n := 293) (by norm_num) (by norm_num)]
  norm_num

theorem eval_atl_seed1114 : calculate_atl [42] (557 / 50) = 311 / 20 := by
  rw [calculate_atl]
  have h : atl_fold [42] (557 / 50) = 2721 / 175 := by
    simp [atl_fold, ATL_TIME_CONSTANT]; norm_num
  rw [h, round2_eval_up (n := 1554) (by norm_num) (by norm_num)]
  norm_num

theorem eval_tsb_day2 : calculate_tsb (293 / 100) (311 / 20) = -631 / 50 := by
  rw [calculate_tsb, round2_eval_down (n := -1262) (by norm_num) (by norm_num)]
  norm_num

/-- **C2.**  The claim (and spec §4.3 step 4): `full_sync` recomputes the
entire daily TrainingLoad series seeded at CTL = ATL = 0 REGARDLESS of
previously stored rows.  The source instead seeds
`_calculate_training_loads` from the most recently stored TrainingLoad row
whenever one exists (`previous_ctl = previous_load.ctl if previous_load else
0.0`).  Re-running the full recompute over the same single TSS-42 activity
with its own day-0 row (ctl 1.0, atl 6.0) already stored yields ctl 1.98 /
atl 11.14 for day 0 — not the 1.0 / 6.0 a zero-seeded recompute produces on
an empty table (second conjunct), so a repeated `full_sync` inflates the
series instead of reproducing it, contradicting the spec's idempotence
property as well. -/
theorem C2_full_sync_seed_divergence :
    full_sync_loads [⟨1, 0, 42⟩] [⟨0, 42, 1, 6, -5⟩] =
      [⟨0, 42, 99 / 50, 557 / 50, -229 / 25⟩] ∧
    full_sync_loads [⟨1, 0, 42⟩] [] = [⟨0, 42, 1, 6, -5⟩] ∧
    (99 : ℚ) / 50 ≠ 1 := by
  refine ⟨?_, ?_, by norm_num⟩
  · simp [full_sync_loads, calc_training_loads, latest_load, List.argmax, List.argAux,
      upsert_load, List.dedup, List.insertionSort, List.orderedInsert,
      eval_ctl_seed1, eval_atl_seed6, eval_tsb_day1]
  · simp [full_sync_loads, calc_training_loads, latest_load, List.argmax, List.argAux,
      upsert_load, List.dedup, List.insertionSort, List.orderedInsert,
      eval_ctl_seed0, eval_atl_seed0, eval_tsb_1_6]

/-- **C1.**  The claim: an incremental recompute from a checkpoint is seeded
from the TrainingLoad row immediately PRECEDING the bound date and
reproduces exactly what a full recompute over the whole range would
produce.  The source seeds from the most recent stored row overall — here
the day-0 row itself, although day 0 is being recomputed — so continuing
from the day-0 checkpoint (store holding day 0: ctl 1.0 / atl 6.0) after a
second TSS-42 activity arrives on day 1 rewrites day 0 to ctl 1.98 and day
1 to ctl 2.93, while the full recompute over the same two activities gives
day 0 ctl 1.00 and day 1 ctl 1.98: the overlapping rows differ
(1.98 ≠ 1.00).  (Independently, `SyncMetadata.last_activity_date` is never
assigned anywhere, so the checkpoint bound read by `incremental_sync` is in
fact always `None` and every incremental run recomputes all days seeded
from the latest stored row, diverging the same way.) -/
theorem C1_incremental_seed_divergence :
    incremental_sync_loads [⟨1, 0, 42⟩, ⟨2, 1, 42⟩] (some 0) [⟨0, 42, 1, 6, -5⟩] =
      [⟨0, 42, 99 / 50, 557 / 50, -229 / 25⟩, ⟨1, 42, 293 / 100, 311 / 20, -631 / 50⟩] ∧
    full_sync_loads [⟨1, 0, 42⟩, ⟨2, 1, 42⟩] [] =
      [⟨0, 42, 1, 6, -5⟩, ⟨1, 42, 99 / 50, 557 / 50, -229 / 25⟩] ∧
    ((99 : ℚ) / 50 ≠ 1 ∧ (293 : ℚ) / 100 ≠ 99 / 50) := by
  refine ⟨?_, ?_, by norm_num, by norm_num⟩
  · simp [incremental_sync_loads, calc_training_loads, latest_load, List.argmax, List.argAux,
      upsert_load, List.dedup, List.insertionSort, List.orderedInsert,
      eval_ctl_seed1, eval_atl_seed6, eval_tsb_day1,
      eval_ctl_seed198, eval_atl_seed1114, eval_tsb_day2]
  · simp [full_sync_loads, calc_training_loads, latest_load, List.argmax, List.argAux,
      upsert_load, List.dedup, List.insertionSort, List.orderedInsert,
      eval_ctl_seed0, eval_atl_seed0, eval_tsb_1_6,
      eval_ctl_seed1, eval_atl_seed6, eval_tsb_day1]

/-! ## C4: unauthorized-response handling in the retry wrapper -/

/-- **C4.**  The claim: exactly one token refresh followed by exactly one
retry, with a second unauthorized response surfaced as a fatal auth error,
and never a silent no-result success.  The loop in
`_make_request_with_retry` instead refreshes on EVERY unauthorized attempt:
with all three attempts unauthorized and every refresh succeeding, it
performs three refreshes and then falls off the `for` loop, implicitly
returning `None` — no result and no exception (first conjunct, the `.ok
none` outcome), contradicting the method's own "Returns: Function result"
contract.  A fatal `AccessUnauthorized` is raised only when a refresh
attempt itself fails (second conjunct: refresh succeeds once, then fails ⇒
two refresh attempts, then the error).  The single-refresh-single-retry
shape the claim describes occurs only when the retried call succeeds (third
conjunct). -/
theorem C4_retry_unauthorized_fallthrough :
    make_request_with_retry (α := ℕ) (.ok ())
        (fun _ => .error .accessUnauthorized) (fun _ => true) 3 =
      (.ok none, 3) ∧
    make_request_with_retry (α := ℕ) (.ok ())
        (fun _ => .error .accessUnauthorized) (fun k => k < 1) 3 =
      (.error .accessUnauthorized, 2) ∧
    make_request_with_retry (α := ℕ) (.ok ())
        (fun i => if i = 0 then .error .accessUnauthorized else .ok 7) (fun _ => true) 3 =
      (.ok (some 7), 1) := by
  refine ⟨?_, ?_, ?_⟩ <;>
    simp [make_request_with_retry, retry_loop]

/-! ## C9: structured sync results -/

/-- **C9 counterexample.**  The claim: EVERY execution, including every one
in which an internal step raises, returns a status dictionary and never
lets an exception escape.  But `get_database_session()` and
`_create_sync_record(...)` run before the `try:` block, so an exception
while creating the `in_progress` record propagates to the caller instead of
producing a `{"status": "failed"}` result. -/
theorem C9_pre_try_exception_escapes :
    full_sync record_failure_env = .error "db down" ∧
    incremental_sync record_failure_env = .error "db down" := ⟨rfl, rfl⟩

/-- **C9 (amended).**  Once the session is open and the `in_progress`
SyncMetadata record has been created — and provided committing the failure
record itself succeeds — both `full_sync` and `incremental_sync` return a
result dictionary whose status is `"success"` (with both counts present)
or `"failed"` (with the exception's message string attached, possibly
empty), whatever the guarded steps do; exceptions raised before the `try`
block (session opening, sync-record creation) or while committing the
failure record escape to the caller, as forced by the counterexample. -/
theorem C9_guarded_steps_return_result (env : SyncEnv)
    (hs : env.open_session = .ok ()) (hc : env.create_record = .ok ())
    (hf : env.commit_failure = .ok ()) :
    (∃ r : SyncResult, full_sync env = .ok r ∧
      ((r.status = "success" ∧ r.error = none ∧
          r.activities_synced.isSome ∧ r.streams_synced.isSome) ∨
        (r.status = "failed" ∧ ∃ e, r.error = some e))) ∧
    (∃ r : SyncResult, incremental_sync env = .ok r ∧
      ((r.status = "success" ∧ r.error = none ∧
          r.activities_synced.isSome ∧ r.streams_synced.isSome) ∨
        (r.status = "failed" ∧ ∃ e, r.error = some e))) := by
  have hguard : ∀ body : Except String (ℕ × ℕ),
      ∃ r : SyncResult, sync_guard body env = .ok r ∧
        ((r.status = "success" ∧ r.error = none ∧
            r.activities_synced.isSome ∧ r.streams_synced.isSome) ∨
          (r.status = "failed" ∧ ∃ e, r.error = some e)) := by
    intro body
    match body with
    | .ok (a, s) =>
      exact ⟨_, rfl, Or.inl ⟨rfl, rfl, rfl, rfl⟩⟩
    | .error e =>
      refine ⟨{ status := "failed", activities_synced := none,
                streams_synced := none, error := some e }, ?_, Or.inr ⟨rfl, e, rfl⟩⟩
      rw [sync_guard, hf]
  constructor
  · rw [full_sync, hs, hc]
    exact hguard _
  · rw [incremental_sync, hs, hc]
    exact hguard _

/-! ## Witnesses: the hypothesis-bearing claim theorems instantiated at
concrete inputs -/

/-- **C6 witness**: zone index 0 of a one-zone list, sample 150 inside
`[100, 200)`, evaluated through the claim theorem. -/
theorem C6_half_open_zone_assignment_witness :
    (0 : ℕ) < ([⟨100, 200⟩] : List ZoneDef).length ∧
    (calculate_time_in_zones [150] [⟨100, 200⟩] 1)[0]? = some (1, 1) := by
  refine ⟨by norm_num, ?_⟩
  have h := C6_half_open_zone_assignment.1 150 [⟨100, 200⟩] 1 0 (by norm_num)
  rw [h]
  norm_num

/-- **C7 witness**: 29 samples of 100 W give 0.0; 30 constant samples of
40 W (and of the cast natural 37) give back the constant. -/
theorem C7_normalized_power_boundary_witness :
    (List.replicate 29 (100 : ℚ)).length < 30 ∧
    calculate_normalized_power (List.replicate 29 (100 : ℚ)) 1 = 0 ∧
    (0 : ℚ) ≤ 40 ∧
    calculate_normalized_power (List.replicate 30 (40 : ℚ)) 1 = round1 (((40 : ℚ)) : ℝ) ∧
    calculate_normalized_power (List.replicate 30 ((37 : ℕ) : ℚ)) 1 = (37 : ℕ) :=
  ⟨by simp, C7_normalized_power_boundary.1 _ 1 (by simp), by norm_num,
    C7_normalized_power_boundary.2.1 40 (by norm_num),
    C7_normalized_power_boundary.2.2 37⟩

/-- **C8 witness**: the monotone-convergence theorem instantiated at
`T = 50`, day 7. -/
theorem C8_ctl_atl_monotone_convergence_witness :
    (0 : ℚ) < 50 ∧
    ctl_fold (List.replicate 7 (50 : ℚ)) 0 < ctl_fold (List.replicate 8 (50 : ℚ)) 0 ∧
    ctl_fold (List.replicate 7 (50 : ℚ)) 0 ≤ 50 ∧
    ctl_fold (List.replicate 7 (50 : ℚ)) 0 ≤ atl_fold (List.replicate 7 (50 : ℚ)) 0 ∧
    63 / 2 < calculate_ctl (List.replicate 42 50) 0 := by
  have h := C8_ctl_atl_monotone_convergence 50 (by norm_num)
  exact ⟨by norm_num, h.1 7, h.2.1 7, h.2.2.1 7, h.2.2.2⟩

/-- **C9 witness**: the all-steps-succeed environment satisfies the
hypotheses, and both sync entry points return an `ok` structured result. -/
theorem C9_guarded_steps_return_result_witness :
    all_ok_env.open_session = .ok () ∧ all_ok_env.create_record = .ok () ∧
    all_ok_env.commit_failure = .ok () ∧
    (∃ r : SyncResult, full_sync all_ok_env = .ok r ∧
      ((r.status = "success" ∧ r.error = none ∧
          r.activities_synced.isSome ∧ r.streams_synced.isSome) ∨
        (r.status = "failed" ∧ ∃ e, r.error = some e))) ∧
    (∃ r : SyncResult, incremental_sync all_ok_env = .ok r ∧
      ((r.status = "success" ∧ r.error = none ∧
          r.activities_synced.isSome ∧ r.streams_synced.isSome) ∨
        (r.status = "failed" ∧ ∃ e, r.error = some e))) := by
  have h := C9_guarded_steps_return_result all_ok_env rfl rfl rfl
  exact ⟨rfl, rfl, rfl, h.1, h.2⟩

/-- **C10 witness**: a one-hour activity with no sensor data and no athlete
thresholds gets the 50-TSS estimate, which is stored and positive. -/
theorem C10_fallback_estimate_witness :
    ((none : Option ℤ).getD 0 = 0 ∨ (none : Option ℤ).getD 0 = 0) ∧
    ((none : Option ℚ).getD 0 = 0 ∨ (none : Option ℚ).getD 0 = 0) ∧
    calculate_activity_tss ⟨some 3600, none, none⟩ none none =
      round1 ((3600 : ℚ) / 3600 * 50) ∧
    sync_activity_tss ⟨some 3600, none, none⟩ (some ⟨none, none⟩) none =
      some (round1 ((3600 : ℚ) / 3600 * 50)) ∧
    (4 ≤ (3600 : ℤ) → 0 < round1 ((3600 : ℚ) / 3600 * 50)) := by
  have h := C10_fallback_estimate 3600 none none none none none none
    (Or.inl rfl) (Or.inl rfl) (Or.inl rfl)
  exact ⟨Or.inl rfl, Or.inl rfl, h.1, h.2.1, h.2.2⟩

end StravaAnalytics
